import Mathlib

/-!
# gosql: customers service and HTTP handlers

A shallow embedding of `pkg/customers/service.go` and `cmd/app/server.go`.

The connection pool (pgx) is an external collaborator.  It is embedded as a
record of three functions over an explicit store state, one per pool method the
service calls (`Query`, `QueryRow(...).Scan`, `Exec`), and every call is
recorded in a log of issued statements.  Logging (`log.Print`) has no effect on
results and is left out.
-/

set_option linter.unnecessarySeqFocus false

namespace Gosql

/-! ## Data model -/

/-- Timestamps (`time.Time`), kept abstract, as a number. -/
abbrev Time := Int

/-- Customer, as declared in `service.go`. -/
structure Customer where
  ID : Int
  Name : String
  Phone : String
  Active : Bool
  Created : Time
deriving DecidableEq, Repr

/-- Errors coming out of the pgx driver.  `ErrNoRows` stands for every error
`e` with `errors.Is(e, pgx.ErrNoRows)`; `other` is any other driver error. -/
inductive PgxError where
  | ErrNoRows
  | other (msg : String)
deriving DecidableEq, Repr

/-- Go `error` values that can leave the customers package: its two sentinel
errors, or a driver error handed through unchanged. -/
inductive Error where
  | ErrNotFound
  | ErrInternal
  | pgx (e : PgxError)
deriving DecidableEq, Repr

/-- The SQL statements of `service.go`, with their positional arguments. -/
inductive Stmt where
  /-- SELECT id, name, phone, active, created FROM customers -/
  | selectAll
  /-- SELECT ... FROM customers WHERE active -/
  | selectActive
  /-- SELECT ... FROM customers WHERE id = $1 -/
  | selectByID (id : Int)
  /-- INSERT INTO customers (name, phone) VALUES ($1, $2)
      ON CONFLICT (phone) DO UPDATE SET name = excluded.name RETURNING ... -/
  | upsert (name phone : String)
  /-- UPDATE customers SET name = $2, phone = $3 WHERE id = $1 RETURNING ... -/
  | update (id : Int) (name phone : String)
  /-- DELETE FROM customers WHERE id = $1 -/
  | delete (id : Int)
  /-- UPDATE customers SET active = false WHERE id = $1 -/
  | block (id : Int)
  /-- UPDATE customers SET active = true WHERE id = $1 -/
  | unblock (id : Int)
deriving DecidableEq, Repr

/-- What `pool.Query` hands back on success: for each row that `rows.Next()`
yields, the outcome of `rows.Scan` on it, and the final value of `rows.Err()`. -/
structure Rows where
  scans : List (Except PgxError Customer)
  err : Option PgxError

/-- The connection pool over a store state `σ`. -/
structure Pool (σ : Type) where
  Query : Stmt → σ → Except PgxError Rows × σ
  QueryRow : Stmt → σ → Except PgxError Customer × σ
  Exec : Stmt → σ → Option PgxError × σ

/-- Store state together with the statements issued so far. -/
structure Conn (σ : Type) where
  db : σ
  issued : List Stmt
deriving DecidableEq

/-- Result pair of a service method: `(value, error)`, `none` being Go `nil`. -/
abbrev Result (α : Type) := Option α × Option Error

/-! ## strconv.ParseInt and http.StatusText -/

/-- Value of a decimal digit. -/
def digitVal (ch : Char) : Option Nat :=
  if 48 ≤ ch.toNat ∧ ch.toNat ≤ 57 then some (ch.toNat - 48) else none

/-- Digits of a non-empty run, most significant first. -/
def parseDigits : List Char → Nat → Option Nat
  | [], acc => some acc
  | ch :: rest, acc =>
    match digitVal ch with
    | none => none
    | some d => parseDigits rest (acc * 10 + d)

/-- The digits after the optional sign: at least one, all decimal, and the
signed value within the int64 range. -/
def parseMagnitude (neg : Bool) (ds : List Char) : Option Int :=
  match ds with
  | [] => none
  | _ =>
    match parseDigits ds 0 with
    | none => none
    | some n =>
      if neg then (if n ≤ 2 ^ 63 then some (-(n : Int)) else none)
      else (if n ≤ 2 ^ 63 - 1 then some (n : Int) else none)

/-- Go `strconv.ParseInt(s, 10, 64)`: an optional sign, then one or more
decimal digits, the value within the int64 range.  `none` is a non-nil error
(syntax or range). -/
def ParseInt (s : String) : Option Int :=
  match s.toList with
  | [] => none
  | ch :: rest =>
    if ch = '+' then parseMagnitude false rest
    else if ch = '-' then parseMagnitude true rest
    else parseMagnitude false (ch :: rest)

def StatusOK : Nat := 200
def StatusBadRequest : Nat := 400
def StatusNotFound : Nat := 404
def StatusInternalServerError : Nat := 500

/-- Go `http.StatusText`, on the status codes this program uses. -/
def StatusText (code : Nat) : String :=
  if code = 200 then "OK"
  else if code = 400 then "Bad Request"
  else if code = 404 then "Not Found"
  else if code = 500 then "Internal Server Error"
  else ""

/-! ## Data access: `pkg/customers/service.go` -/

section Service

variable {σ : Type}

/-- Call `pool.Query`, recording the statement. -/
def Pool.query (p : Pool σ) (q : Stmt) (c : Conn σ) : Except PgxError Rows × Conn σ :=
  ((p.Query q c.db).1, ⟨(p.Query q c.db).2, c.issued ++ [q]⟩)

/-- Call `pool.QueryRow(...).Scan(...)`, recording the statement. -/
def Pool.queryRow (p : Pool σ) (q : Stmt) (c : Conn σ) : Except PgxError Customer × Conn σ :=
  ((p.QueryRow q c.db).1, ⟨(p.QueryRow q c.db).2, c.issued ++ [q]⟩)

/-- Call `pool.Exec`, recording the statement. -/
def Pool.exec (p : Pool σ) (q : Stmt) (c : Conn σ) : Option PgxError × Conn σ :=
  ((p.Exec q c.db).1, ⟨(p.Exec q c.db).2, c.issued ++ [q]⟩)

/-- The loop `for rows.Next() { ... rows.Scan ... items = append(items, item) }`
of `All` and `AllActive`: the first failing scan ends it with that error. -/
def scanLoop : List (Except PgxError Customer) → List Customer → Except PgxError (List Customer)
  | [], items => .ok items
  | .error e :: _, _ => .error e
  | .ok item :: rest, items => scanLoop rest (items ++ [item])

/-- Service.All -/
def All (p : Pool σ) (c : Conn σ) : Result (List Customer) × Conn σ :=
  match p.query Stmt.selectAll c with
  | (.error e, c1) =>
    if e = PgxError.ErrNoRows then ((none, some Error.ErrNotFound), c1)
    else ((none, some Error.ErrInternal), c1)
  | (.ok rows, c1) =>
    match scanLoop rows.scans [] with
    | .error e => ((none, some (Error.pgx e)), c1)
    | .ok items =>
      match rows.err with
      | some e => ((none, some (Error.pgx e)), c1)
      | none => ((some items, none), c1)

/-- Service.AllActive -/
def AllActive (p : Pool σ) (c : Conn σ) : Result (List Customer) × Conn σ :=
  match p.query Stmt.selectActive c with
  | (.error e, c1) =>
    if e = PgxError.ErrNoRows then ((none, some Error.ErrNotFound), c1)
    else ((none, some Error.ErrInternal), c1)
  | (.ok rows, c1) =>
    match scanLoop rows.scans [] with
    | .error e => ((none, some (Error.pgx e)), c1)
    | .ok items =>
      match rows.err with
      | some e => ((none, some (Error.pgx e)), c1)
      | none => ((some items, none), c1)

/-- Service.ByID -/
def ByID (p : Pool σ) (id : Int) (c : Conn σ) : Result Customer × Conn σ :=
  match p.queryRow (Stmt.selectByID id) c with
  | (.error e, c1) =>
    if e = PgxError.ErrNoRows then ((none, some Error.ErrNotFound), c1)
    else ((none, some Error.ErrInternal), c1)
  | (.ok item, c1) => ((some item, none), c1)

/-- Service.Save -/
def Save (p : Pool σ) (item : Customer) (c : Conn σ) : Result Customer × Conn σ :=
  if item.ID = 0 then
    match p.queryRow (Stmt.upsert item.Name item.Phone) c with
    | (.error _, c1) => ((none, some Error.ErrInternal), c1)
    | (.ok items, c1) => ((some items, none), c1)
  else
    let r := ByID p item.ID c
    if r.1.2 = some Error.ErrNotFound then ((none, some Error.ErrNotFound), r.2)
    else
      match p.queryRow (Stmt.update item.ID item.Name item.Phone) r.2 with
      | (.error _, c2) => ((none, some Error.ErrInternal), c2)
      | (.ok items, c2) => ((some items, none), c2)

/-- Service.RemoveByID -/
def RemoveByID (p : Pool σ) (id : Int) (c : Conn σ) : Result Customer × Conn σ :=
  let r := ByID p id c
  if r.1.2 = some Error.ErrNotFound then ((none, some Error.ErrNotFound), r.2)
  else
    match p.exec (Stmt.delete id) r.2 with
    | (some _, c2) => ((none, some Error.ErrInternal), c2)
    | (none, c2) => ((r.1.1, none), c2)

/-- Service.BlockUser -/
def BlockUser (p : Pool σ) (id : Int) (c : Conn σ) : Result Customer × Conn σ :=
  let r := ByID p id c
  if r.1.2 = some Error.ErrNotFound then ((none, some Error.ErrNotFound), r.2)
  else
    match p.exec (Stmt.block id) r.2 with
    | (some _, c2) => ((none, some Error.ErrInternal), c2)
    | (none, c2) => ((r.1.1, none), c2)

/-- Service.UnblockUser -/
def UnblockUser (p : Pool σ) (id : Int) (c : Conn σ) : Result Customer × Conn σ :=
  let r := ByID p id c
  if r.1.2 = some Error.ErrNotFound then ((none, some Error.ErrNotFound), r.2)
  else
    match p.exec (Stmt.unblock id) r.2 with
    | (some _, c2) => ((none, some Error.ErrInternal), c2)
    | (none, c2) => ((r.1.1, none), c2)

end Service

/-! ## Request handling: `cmd/app/server.go` -/

/-- The part of `*http.Request` the handlers read: URL query parameters and
the parameters of a url-encoded body, in order of appearance. -/
structure Request where
  query : List (String × String)
  body : List (String × String)

/-- Go `url.Values.Get`: first value of the key, the empty string if absent. -/
def Get (vs : List (String × String)) (key : String) : String :=
  (vs.lookup key).getD ""

/-- Go `Request.FormValue`: body parameters take precedence over the URL query. -/
def FormValue (request : Request) (key : String) : String :=
  Get (request.body ++ request.query) key

/-- Values handed to `json.Marshal`: a `*Customer` or a `[]*Customer`. -/
inductive Payload where
  | customer (item : Option Customer)
  | customers (items : Option (List Customer))
deriving DecidableEq, Repr

/-- What a handler leaves on the `ResponseWriter`. -/
inductive Response where
  /-- Call `http.Error(writer, text, code)`. -/
  | error (text : String) (code : Nat)
  /-- Header `Content-Type: application/json`, then `writer.Write(data)`. -/
  | json (data : String)
deriving DecidableEq, Repr

/-- HTTP status of a response; a plain `Write` sends 200. -/
def Response.status : Response → Nat
  | .error _ code => code
  | .json _ => StatusOK

/-- Surroundings of a handler besides the pool: `json.Marshal` and `time.Now()`. -/
structure Env where
  Marshal : Payload → Except String String
  Now : Time

/-- Call `http.Error(writer, http.StatusText(code), code)`. -/
def httpError (code : Nat) : Response :=
  Response.error (StatusText code) code

section Handlers

variable {σ : Type}

/-- Tail shared by all handlers: marshal, answer 500 on failure, else write
the data with the JSON content type. -/
def writeJSON (env : Env) (v : Payload) : Response :=
  match env.Marshal v with
  | .error _ => httpError StatusInternalServerError
  | .ok data => Response.json data

/-- Error mapping shared by the save / remove / block / unblock handlers. -/
def respondMutation (env : Env) (r : Result Customer) : Response :=
  match r.2 with
  | some err =>
    if err = Error.ErrNotFound then httpError StatusNotFound
    else httpError StatusInternalServerError
  | none => writeJSON env (Payload.customer r.1)

/-- Server.handleGetCustomerByID -/
def handleGetCustomerByID (p : Pool σ) (env : Env) (request : Request) (c : Conn σ) :
    Response × Conn σ :=
  match ParseInt (Get request.query "id") with
  | none => (httpError StatusBadRequest, c)
  | some id =>
    let r := ByID p id c
    if r.1.2 = some Error.ErrNotFound then (httpError StatusInternalServerError, r.2)
    else (writeJSON env (Payload.customer r.1.1), r.2)

/-- Server.handleGetAll -/
def handleGetAll (p : Pool σ) (env : Env) (_request : Request) (c : Conn σ) :
    Response × Conn σ :=
  let r := All p c
  match r.1.2 with
  | some _ => (httpError StatusBadRequest, r.2)
  | none => (writeJSON env (Payload.customers r.1.1), r.2)

/-- Server.handleGetAllActive -/
def handleGetAllActive (p : Pool σ) (env : Env) (_request : Request) (c : Conn σ) :
    Response × Conn σ :=
  let r := AllActive p c
  match r.1.2 with
  | some _ => (httpError StatusBadRequest, r.2)
  | none => (writeJSON env (Payload.customers r.1.1), r.2)

/-- Server.handleSave -/
def handleSave (p : Pool σ) (env : Env) (request : Request) (c : Conn σ) :
    Response × Conn σ :=
  let customerID := FormValue request "id"
  let customerName := FormValue request "name"
  let customerPhone := FormValue request "phone"
  match ParseInt customerID with
  | none => (httpError StatusBadRequest, c)
  | some convID =>
    if customerName = "" ∧ customerPhone = "" then (httpError StatusBadRequest, c)
    else
      let item : Customer :=
        { ID := convID, Name := customerName, Phone := customerPhone,
          Active := true, Created := env.Now }
      let r := Save p item c
      (respondMutation env r.1, r.2)

/-- Server.handleRemoveByID -/
def handleRemoveByID (p : Pool σ) (env : Env) (request : Request) (c : Conn σ) :
    Response × Conn σ :=
  match ParseInt (Get request.query "id") with
  | none => (httpError StatusBadRequest, c)
  | some convID =>
    let r := RemoveByID p convID c
    (respondMutation env r.1, r.2)

/-- Server.handleBlockByID -/
def handleBlockByID (p : Pool σ) (env : Env) (request : Request) (c : Conn σ) :
    Response × Conn σ :=
  match ParseInt (Get request.query "id") with
  | none => (httpError StatusBadRequest, c)
  | some convID =>
    let r := BlockUser p convID c
    (respondMutation env r.1, r.2)

/-- Server.handleUnblockByID -/
def handleUnblockByID (p : Pool σ) (env : Env) (request : Request) (c : Conn σ) :
    Response × Conn σ :=
  match ParseInt (Get request.query "id") with
  | none => (httpError StatusBadRequest, c)
  | some convID =>
    let r := UnblockUser p convID c
    (respondMutation env r.1, r.2)

end Handlers

/-! ## A reference store: the customers table -/

/-- Modelled from the spec: the relational store is not part of the sources.
The table `customers(id PK, name, phone UNIQUE, active, created)` of the spec,
with the counter that assigns ids and the clock that stamps `created`. -/
structure Table where
  rows : List Customer
  nextID : Int
  clock : Time
deriving DecidableEq, Repr

/-- Modelled from the spec: effect of `UPDATE customers SET active = b WHERE id = $1`
on one row. -/
def setActive (id : Int) (b : Bool) (r : Customer) : Customer :=
  if r.ID = id then { r with Active := b } else r

/-- Modelled from the spec: `Query` on the table; only the two SELECT statements
yield rows, every row scans, iteration ends without error. -/
def Table.Query (q : Stmt) (t : Table) : Except PgxError Rows × Table :=
  match q with
  | Stmt.selectAll => (.ok ⟨t.rows.map Except.ok, none⟩, t)
  | Stmt.selectActive => (.ok ⟨(t.rows.filter (fun r => r.Active)).map Except.ok, none⟩, t)
  | _ => (.ok ⟨[], none⟩, t)

/-- Modelled from the spec: `QueryRow(...).Scan` on the table.  The lookup
finds the row with the id; the upsert is keyed on `phone` and a new row gets a
fresh id, `active = true` and the current time; the update by id rewrites name
and phone and is refused when the phone belongs to another row. -/
def Table.QueryRow (q : Stmt) (t : Table) : Except PgxError Customer × Table :=
  match q with
  | Stmt.selectByID id =>
    match t.rows.find? (fun r => r.ID = id) with
    | some r => (.ok r, t)
    | none => (.error PgxError.ErrNoRows, t)
  | Stmt.upsert name phone =>
    match t.rows.find? (fun r => r.Phone = phone) with
    | some r =>
      (.ok { r with Name := name },
       { t with rows := t.rows.map (fun x => if x.Phone = phone then { x with Name := name } else x) })
    | none =>
      (.ok { ID := t.nextID, Name := name, Phone := phone, Active := true, Created := t.clock },
       { t with
         rows := t.rows ++ [{ ID := t.nextID, Name := name, Phone := phone, Active := true,
                              Created := t.clock }],
         nextID := t.nextID + 1 })
  | Stmt.update id name phone =>
    match t.rows.find? (fun r => r.ID = id) with
    | none => (.error PgxError.ErrNoRows, t)
    | some r =>
      if t.rows.any (fun x => x.ID ≠ id ∧ x.Phone = phone) then
        (.error (PgxError.other "unique violation"), t)
      else
        (.ok { r with Name := name, Phone := phone },
         { t with
           rows := t.rows.map (fun x => if x.ID = id then { x with Name := name, Phone := phone } else x) })
  | _ => (.error PgxError.ErrNoRows, t)

/-- Modelled from the spec: `Exec` on the table. -/
def Table.Exec (q : Stmt) (t : Table) : Option PgxError × Table :=
  match q with
  | Stmt.delete id => (none, { t with rows := t.rows.filter (fun r => r.ID ≠ id) })
  | Stmt.block id => (none, { t with rows := t.rows.map (setActive id false) })
  | Stmt.unblock id => (none, { t with rows := t.rows.map (setActive id true) })
  | _ => (none, t)

/-- The pool over the reference table. -/
def tablePool : Pool Table :=
  { Query := Table.Query, QueryRow := Table.QueryRow, Exec := Table.Exec }

/-! ## Stores and surroundings used in worked examples -/

/-- An empty table whose next id is 1. -/
def emptyTable : Table := { rows := [], nextID := 1, clock := 0 }

/-- A table holding one active customer. -/
def annTable : Table :=
  { rows := [{ ID := 1, Name := "Ann", Phone := "555-0100", Active := true, Created := 0 }],
    nextID := 2, clock := 0 }

/-- A table holding two active customers. -/
def pairTable : Table :=
  { rows := [{ ID := 1, Name := "Ann", Phone := "555-0100", Active := true, Created := 0 },
             { ID := 2, Name := "Bob", Phone := "555-0101", Active := true, Created := 5 }],
    nextID := 3, clock := 9 }

/-- A store on which every statement fails with a driver error that is not
`ErrNoRows` (say, the connection is down). -/
def downPool : Pool Unit :=
  { Query := fun _ s => (.error (PgxError.other "connection refused"), s),
    QueryRow := fun _ s => (.error (PgxError.other "connection refused"), s),
    Exec := fun _ s => (some (PgxError.other "connection refused"), s) }

/-- A store whose reads fail with a driver error that is not `ErrNoRows`
while its `Exec` succeeds. -/
def flakyPool : Pool Unit :=
  { Query := fun _ s => (.error (PgxError.other "timeout"), s),
    QueryRow := fun _ s => (.error (PgxError.other "timeout"), s),
    Exec := fun _ s => (none, s) }

/-- A store whose SELECT yields one row that cannot be scanned. -/
def badRowPool : Pool Unit :=
  { Query := fun _ s => (.ok ⟨[.error (PgxError.other "cannot scan NULL into *string")], none⟩, s),
    QueryRow := fun _ s => (.error PgxError.ErrNoRows, s),
    Exec := fun _ s => (none, s) }

/-- A store whose SELECT yields no row and then reports an iteration error. -/
def brokenIterPool : Pool Unit :=
  { Query := fun _ s => (.ok ⟨[], some (PgxError.other "unexpected EOF")⟩, s),
    QueryRow := fun _ s => (.error PgxError.ErrNoRows, s),
    Exec := fun _ s => (none, s) }

/-- An encoder that never fails: `null` for a nil pointer or slice, and a
short rendering otherwise. -/
def demoMarshal : Payload → Except String String
  | Payload.customer none => .ok "null"
  | Payload.customer (some item) => .ok ("customer " ++ item.Name ++ " " ++ item.Phone)
  | Payload.customers none => .ok "null"
  | Payload.customers (some items) => .ok ("customers " ++ " ".intercalate (items.map Customer.Name))

/-- Surroundings with the never-failing encoder. -/
def demoEnv : Env := { Marshal := demoMarshal, Now := 0 }

/-- An encoder that fails where `time.Time.MarshalJSON` does, on a year outside
0..9999, timestamps being read as seconds since 1970; elsewhere it is
`demoMarshal`. -/
def strictMarshal : Payload → Except String String
  | Payload.customer (some item) =>
    if item.Created < -62167219200 ∨ 253402300799 < item.Created then
      .error "Time.MarshalJSON: year outside of range [0,9999]"
    else demoMarshal (Payload.customer (some item))
  | v => demoMarshal v

/-- Surroundings with the encoder that rejects far-away years. -/
def strictEnv : Env := { Marshal := strictMarshal, Now := 0 }

/-- A table whose one customer carries a creation time in the year 11476. -/
def lateTable : Table :=
  { rows := [{ ID := 1, Name := "Ann", Phone := "555-0100", Active := true,
               Created := 300000000000 }],
    nextID := 2, clock := 0 }

/-! ## Basic facts about the service -/

section Facts

variable {σ : Type}

theorem ByID_of_noRows (p : Pool σ) (id : Int) (c : Conn σ)
    (h : (p.QueryRow (Stmt.selectByID id) c.db).1 = .error PgxError.ErrNoRows) :
    ByID p id c = ((none, some Error.ErrNotFound),
      ⟨(p.QueryRow (Stmt.selectByID id) c.db).2, c.issued ++ [Stmt.selectByID id]⟩) := by
  simp [ByID, Pool.queryRow, h]

theorem ByID_of_row (p : Pool σ) (id : Int) (c : Conn σ) (cust : Customer)
    (h : (p.QueryRow (Stmt.selectByID id) c.db).1 = .ok cust) :
    ByID p id c = ((some cust, none),
      ⟨(p.QueryRow (Stmt.selectByID id) c.db).2, c.issued ++ [Stmt.selectByID id]⟩) := by
  simp [ByID, Pool.queryRow, h]

theorem ByID_of_failure (p : Pool σ) (id : Int) (c : Conn σ) (e : PgxError)
    (hne : e ≠ PgxError.ErrNoRows)
    (h : (p.QueryRow (Stmt.selectByID id) c.db).1 = .error e) :
    ByID p id c = ((none, some Error.ErrInternal),
      ⟨(p.QueryRow (Stmt.selectByID id) c.db).2, c.issued ++ [Stmt.selectByID id]⟩) := by
  simp [ByID, Pool.queryRow, h, hne]

/-- Whatever `ParseInt` accepts is an int64. -/
theorem ParseInt_range (s : String) (v : Int) (h : ParseInt s = some v) :
    -(2 : Int) ^ 63 ≤ v ∧ v ≤ 2 ^ 63 - 1 := by
  have hmag : ∀ (neg : Bool) (ds : List Char), parseMagnitude neg ds = some v →
      -(2 : Int) ^ 63 ≤ v ∧ v ≤ 2 ^ 63 - 1 := by
    intro neg ds hm
    unfold parseMagnitude at hm
    split at hm
    · cases hm
    · split at hm
      · cases hm
      · rename_i n _
        cases neg
        · simp only [Bool.false_eq_true, if_false] at hm
          split_ifs at hm with hn
          cases hm
          constructor <;> omega
        · simp only [if_true] at hm
          split_ifs at hm with hn
          cases hm
          constructor <;> omega
  unfold ParseInt at h
  split at h
  · cases h
  · split_ifs at h <;> exact hmag _ _ h

/-- The empty string, as read from an absent parameter, is rejected. -/
theorem ParseInt_empty : ParseInt "" = none := by decide

/-- The store state and log after `ByID` are those after its one lookup. -/
theorem ByID_conn (p : Pool σ) (id : Int) (c : Conn σ) :
    (ByID p id c).2 =
      ⟨(p.QueryRow (Stmt.selectByID id) c.db).2, c.issued ++ [Stmt.selectByID id]⟩ := by
  unfold ByID Pool.queryRow
  cases (p.QueryRow (Stmt.selectByID id) c.db).1 with
  | error e => by_cases he : e = PgxError.ErrNoRows <;> simp [he]
  | ok item => simp

/-- The three possible results of `ByID`. -/
theorem ByID_cases (p : Pool σ) (id : Int) (c : Conn σ) :
    (ByID p id c).1 = (none, some Error.ErrNotFound) ∨
    (ByID p id c).1 = (none, some Error.ErrInternal) ∨
    ∃ cust, (ByID p id c).1 = (some cust, none) := by
  unfold ByID Pool.queryRow
  cases (p.QueryRow (Stmt.selectByID id) c.db).1 with
  | error e => by_cases he : e = PgxError.ErrNoRows <;> simp [he]
  | ok item => simp

end Facts

/-! ## Every data-access operation issues a statement

So a handler that leaves the connection as it found it has called none. -/

section Issued

variable {σ : Type}

theorem ByID_issues (p : Pool σ) (id : Int) (c : Conn σ) :
    c.issued.length < (ByID p id c).2.issued.length := by
  rw [ByID_conn]; simp

theorem Save_issues (p : Pool σ) (item : Customer) (c : Conn σ) :
    c.issued.length < (Save p item c).2.issued.length := by
  unfold Save
  by_cases h0 : item.ID = 0
  · simp only [h0, if_true, Pool.queryRow]
    cases (p.QueryRow (Stmt.upsert item.Name item.Phone) c.db).1 <;> simp
  · simp only [h0, if_false]
    have hb := ByID_issues p item.ID c
    by_cases hnf : (ByID p item.ID c).1.2 = some Error.ErrNotFound
    · simpa [hnf] using hb
    · simp only [hnf, if_false, Pool.queryRow]
      cases (p.QueryRow (Stmt.update item.ID item.Name item.Phone) (ByID p item.ID c).2.db).1 <;>
        simp <;> omega

theorem RemoveByID_issues (p : Pool σ) (id : Int) (c : Conn σ) :
    c.issued.length < (RemoveByID p id c).2.issued.length := by
  unfold RemoveByID
  have hb := ByID_issues p id c
  by_cases hnf : (ByID p id c).1.2 = some Error.ErrNotFound
  · simpa [hnf] using hb
  · simp only [hnf, if_false, Pool.exec]
    cases (p.Exec (Stmt.delete id) (ByID p id c).2.db).1 <;> simp <;> omega

theorem BlockUser_issues (p : Pool σ) (id : Int) (c : Conn σ) :
    c.issued.length < (BlockUser p id c).2.issued.length := by
  unfold BlockUser
  have hb := ByID_issues p id c
  by_cases hnf : (ByID p id c).1.2 = some Error.ErrNotFound
  · simpa [hnf] using hb
  · simp only [hnf, if_false, Pool.exec]
    cases (p.Exec (Stmt.block id) (ByID p id c).2.db).1 <;> simp <;> omega

theorem UnblockUser_issues (p : Pool σ) (id : Int) (c : Conn σ) :
    c.issued.length < (UnblockUser p id c).2.issued.length := by
  unfold UnblockUser
  have hb := ByID_issues p id c
  by_cases hnf : (ByID p id c).1.2 = some Error.ErrNotFound
  · simpa [hnf] using hb
  · simp only [hnf, if_false, Pool.exec]
    cases (p.Exec (Stmt.unblock id) (ByID p id c).2.db).1 <;> simp <;> omega

end Issued

/-! ## Claims about the handlers' input validation -/

section Validation

variable {σ : Type}

/-- C4: on each of the five id-based endpoints, when `strconv.ParseInt` rejects
the id parameter the handler answers 400 with the status text "Bad Request"
and hands the connection back untouched: no statement was issued, hence no
data-access operation was called. -/
theorem malformed_id_is_bad_request (p : Pool σ) (env : Env) (request : Request) (c : Conn σ) :
    (ParseInt (Get request.query "id") = none →
      handleGetCustomerByID p env request c = (Response.error "Bad Request" 400, c) ∧
      handleRemoveByID p env request c = (Response.error "Bad Request" 400, c) ∧
      handleBlockByID p env request c = (Response.error "Bad Request" 400, c) ∧
      handleUnblockByID p env request c = (Response.error "Bad Request" 400, c)) ∧
    (ParseInt (FormValue request "id") = none →
      handleSave p env request c = (Response.error "Bad Request" 400, c)) := by
  constructor
  · intro h
    simp [handleGetCustomerByID, handleRemoveByID, handleBlockByID, handleUnblockByID, h,
      httpError, StatusBadRequest, StatusText]
  · intro h
    simp [handleSave, h, httpError, StatusBadRequest, StatusText]

/-- C4 at concrete requests: a non-numeric, an empty and an out-of-range id. -/
theorem malformed_id_is_bad_request_witness :
    ParseInt (Get (⟨[("id", "abc")], []⟩ : Request).query "id") = none ∧
    ParseInt (Get (⟨[], []⟩ : Request).query "id") = none ∧
    ParseInt (FormValue ⟨[], [("id", "9223372036854775808"), ("name", "Ann")]⟩ "id") = none ∧
    handleGetCustomerByID tablePool demoEnv ⟨[("id", "abc")], []⟩ ⟨annTable, []⟩
      = (Response.error "Bad Request" 400, ⟨annTable, []⟩) ∧
    handleRemoveByID tablePool demoEnv ⟨[], []⟩ ⟨annTable, []⟩
      = (Response.error "Bad Request" 400, ⟨annTable, []⟩) ∧
    handleSave tablePool demoEnv ⟨[], [("id", "9223372036854775808"), ("name", "Ann")]⟩
        ⟨annTable, []⟩
      = (Response.error "Bad Request" 400, ⟨annTable, []⟩) :=
  ⟨by decide, by decide, by decide,
   ((malformed_id_is_bad_request tablePool demoEnv ⟨[("id", "abc")], []⟩ ⟨annTable, []⟩).1
      (by decide)).1,
   ((malformed_id_is_bad_request tablePool demoEnv ⟨[], []⟩ ⟨annTable, []⟩).1
      (by decide)).2.1,
   (malformed_id_is_bad_request tablePool demoEnv
      ⟨[], [("id", "9223372036854775808"), ("name", "Ann")]⟩ ⟨annTable, []⟩).2 (by decide)⟩

/-- C9: a save request whose name and phone are both empty is answered 400 with
the connection untouched (so `Save` was not called), whatever the id field
holds; a save request whose id parses and whose name or phone is non-empty is
answered from the result of `Save` on the customer built from the form, and
the connection is the one `Save` leaves. -/
theorem handleSave_validation (p : Pool σ) (env : Env) (request : Request) (c : Conn σ) :
    (FormValue request "name" = "" → FormValue request "phone" = "" →
      handleSave p env request c = (Response.error "Bad Request" 400, c)) ∧
    (∀ convID : Int, ParseInt (FormValue request "id") = some convID →
      ¬ (FormValue request "name" = "" ∧ FormValue request "phone" = "") →
      handleSave p env request c =
        (respondMutation env
          (Save p { ID := convID, Name := FormValue request "name",
                    Phone := FormValue request "phone", Active := true,
                    Created := env.Now } c).1,
         (Save p { ID := convID, Name := FormValue request "name",
                   Phone := FormValue request "phone", Active := true,
                   Created := env.Now } c).2)) := by
  constructor
  · intro hn hp
    cases hid : ParseInt (FormValue request "id") with
    | none => simp [handleSave, hid, httpError, StatusBadRequest, StatusText]
    | some convID => simp [handleSave, hid, hn, hp, httpError, StatusBadRequest, StatusText]
  · intro convID hid hne
    unfold handleSave
    simp only [hid]
    rw [if_neg hne]

/-- C9 at concrete requests: empty name and phone with a good and with a bad
id, and a request with only a phone, which reaches `Save`. -/
theorem handleSave_validation_witness :
    handleSave tablePool demoEnv ⟨[], [("id", "1"), ("name", ""), ("phone", "")]⟩ ⟨annTable, []⟩
      = (Response.error "Bad Request" 400, ⟨annTable, []⟩) ∧
    handleSave tablePool demoEnv ⟨[], [("id", "x")]⟩ ⟨annTable, []⟩
      = (Response.error "Bad Request" 400, ⟨annTable, []⟩) ∧
    handleSave tablePool demoEnv ⟨[], [("id", "1"), ("phone", "555-0199")]⟩ ⟨annTable, []⟩
      = (respondMutation demoEnv
          (Save tablePool { ID := 1, Name := "", Phone := "555-0199", Active := true,
                            Created := 0 } ⟨annTable, []⟩).1,
         (Save tablePool { ID := 1, Name := "", Phone := "555-0199", Active := true,
                           Created := 0 } ⟨annTable, []⟩).2) ∧
    (Save tablePool { ID := 1, Name := "", Phone := "555-0199", Active := true,
                      Created := 0 } ⟨annTable, []⟩).2.issued
      = [Stmt.selectByID 1, Stmt.update 1 "" "555-0199"] :=
  ⟨(handleSave_validation tablePool demoEnv ⟨[], [("id", "1"), ("name", ""), ("phone", "")]⟩
      ⟨annTable, []⟩).1 (by decide) (by decide),
   (handleSave_validation tablePool demoEnv ⟨[], [("id", "x")]⟩ ⟨annTable, []⟩).1
      (by decide) (by decide),
   (handleSave_validation tablePool demoEnv ⟨[], [("id", "1"), ("phone", "555-0199")]⟩
      ⟨annTable, []⟩).2 1 (by decide) (by decide),
   by decide⟩

end Validation

/-! ## Claims about the existence pre-check -/

section Lookup

variable {σ : Type}

/-- C6: when the lookup query for an id yields no row, `ByID`, `RemoveByID`,
`BlockUser` and `UnblockUser` all return `(nil, ErrNotFound)`, and the
connection they leave is the one left by that single lookup: the log holds the
SELECT and no DELETE or UPDATE, and the store is in the state the lookup left. -/
theorem absent_id_not_found (p : Pool σ) (id : Int) (c : Conn σ)
    (h : (p.QueryRow (Stmt.selectByID id) c.db).1 = .error PgxError.ErrNoRows) :
    ByID p id c = ((none, some Error.ErrNotFound),
      ⟨(p.QueryRow (Stmt.selectByID id) c.db).2, c.issued ++ [Stmt.selectByID id]⟩) ∧
    RemoveByID p id c = ((none, some Error.ErrNotFound),
      ⟨(p.QueryRow (Stmt.selectByID id) c.db).2, c.issued ++ [Stmt.selectByID id]⟩) ∧
    BlockUser p id c = ((none, some Error.ErrNotFound),
      ⟨(p.QueryRow (Stmt.selectByID id) c.db).2, c.issued ++ [Stmt.selectByID id]⟩) ∧
    UnblockUser p id c = ((none, some Error.ErrNotFound),
      ⟨(p.QueryRow (Stmt.selectByID id) c.db).2, c.issued ++ [Stmt.selectByID id]⟩) := by
  have hb := ByID_of_noRows p id c h
  refine ⟨hb, ?_, ?_, ?_⟩ <;> simp [RemoveByID, BlockUser, UnblockUser, hb]

/-- C6 on the reference table: id 2 is absent from the one-row table, the four
operations report not-found and the table is the same afterwards. -/
theorem absent_id_not_found_witness :
    (tablePool.QueryRow (Stmt.selectByID 2) annTable).1 = .error PgxError.ErrNoRows ∧
    ByID tablePool 2 ⟨annTable, []⟩
      = ((none, some Error.ErrNotFound), ⟨annTable, [Stmt.selectByID 2]⟩) ∧
    RemoveByID tablePool 2 ⟨annTable, []⟩
      = ((none, some Error.ErrNotFound), ⟨annTable, [Stmt.selectByID 2]⟩) ∧
    BlockUser tablePool 2 ⟨annTable, []⟩
      = ((none, some Error.ErrNotFound), ⟨annTable, [Stmt.selectByID 2]⟩) ∧
    UnblockUser tablePool 2 ⟨annTable, []⟩
      = ((none, some Error.ErrNotFound), ⟨annTable, [Stmt.selectByID 2]⟩) :=
  ⟨rfl, absent_id_not_found tablePool 2 ⟨annTable, []⟩ rfl⟩

/-- C7: when the lookup reads customer `cust` and the DELETE / UPDATE that
follows succeeds, `RemoveByID`, `BlockUser` and `UnblockUser` return exactly
`cust` with a nil error: the row as read before the statement ran, so its
`Active` field is the value stored before the call. -/
theorem mutation_returns_snapshot (p : Pool σ) (id : Int) (c : Conn σ) (cust : Customer)
    (hlook : (p.QueryRow (Stmt.selectByID id) c.db).1 = .ok cust) :
    ((p.Exec (Stmt.delete id) (p.QueryRow (Stmt.selectByID id) c.db).2).1 = none →
      (RemoveByID p id c).1 = (some cust, none)) ∧
    ((p.Exec (Stmt.block id) (p.QueryRow (Stmt.selectByID id) c.db).2).1 = none →
      (BlockUser p id c).1 = (some cust, none)) ∧
    ((p.Exec (Stmt.unblock id) (p.QueryRow (Stmt.selectByID id) c.db).2).1 = none →
      (UnblockUser p id c).1 = (some cust, none)) := by
  have hb := ByID_of_row p id c cust hlook
  refine ⟨?_, ?_, ?_⟩ <;> intro hx <;>
    simp [RemoveByID, BlockUser, UnblockUser, Pool.exec, hb, hx]

/-- C7 on the reference table: blocking the active customer 1 returns her with
`Active = true` although the table now stores `false`; removing her returns
the row just deleted; unblocking a blocked customer returns `Active = false`. -/
theorem mutation_returns_snapshot_witness :
    (BlockUser tablePool 1 ⟨annTable, []⟩).1
      = (some { ID := 1, Name := "Ann", Phone := "555-0100", Active := true, Created := 0 },
         none) ∧
    (BlockUser tablePool 1 ⟨annTable, []⟩).2.db.rows
      = [{ ID := 1, Name := "Ann", Phone := "555-0100", Active := false, Created := 0 }] ∧
    (RemoveByID tablePool 1 ⟨annTable, []⟩).1
      = (some { ID := 1, Name := "Ann", Phone := "555-0100", Active := true, Created := 0 },
         none) ∧
    (UnblockUser tablePool 1 (BlockUser tablePool 1 ⟨annTable, []⟩).2).1
      = (some { ID := 1, Name := "Ann", Phone := "555-0100", Active := false, Created := 0 },
         none) :=
  ⟨(mutation_returns_snapshot tablePool 1 ⟨annTable, []⟩ _ rfl).2.1 (by decide),
   by decide,
   (mutation_returns_snapshot tablePool 1 ⟨annTable, []⟩ _ rfl).1 (by decide),
   (mutation_returns_snapshot tablePool 1 (BlockUser tablePool 1 ⟨annTable, []⟩).2 _
      rfl).2.2 (by decide)⟩

/-- C10: when the pre-check `ByID` fails with an error other than
`ErrNotFound` and the DELETE / UPDATE succeeds, `RemoveByID`, `BlockUser` and
`UnblockUser` still issue their statement, on the connection `ByID` left, and
return a nil customer with a nil error. -/
theorem lookup_failure_is_ignored (p : Pool σ) (id : Int) (c : Conn σ) (err : Error)
    (hfail : (ByID p id c).1.2 = some err) (hne : err ≠ Error.ErrNotFound) :
    ((p.Exec (Stmt.delete id) (ByID p id c).2.db).1 = none →
      RemoveByID p id c = ((none, none),
        ⟨(p.Exec (Stmt.delete id) (ByID p id c).2.db).2,
         (ByID p id c).2.issued ++ [Stmt.delete id]⟩)) ∧
    ((p.Exec (Stmt.block id) (ByID p id c).2.db).1 = none →
      BlockUser p id c = ((none, none),
        ⟨(p.Exec (Stmt.block id) (ByID p id c).2.db).2,
         (ByID p id c).2.issued ++ [Stmt.block id]⟩)) ∧
    ((p.Exec (Stmt.unblock id) (ByID p id c).2.db).1 = none →
      UnblockUser p id c = ((none, none),
        ⟨(p.Exec (Stmt.unblock id) (ByID p id c).2.db).2,
         (ByID p id c).2.issued ++ [Stmt.unblock id]⟩)) := by
  have hnf : (ByID p id c).1.2 ≠ some Error.ErrNotFound := by
    rw [hfail]; intro h; exact hne (Option.some.inj h)
  have hval : (ByID p id c).1.1 = none := by
    rcases ByID_cases p id c with h | h | ⟨cust, h⟩
    · rw [h]
    · rw [h]
    · rw [h] at hfail; cases hfail
  refine ⟨?_, ?_, ?_⟩ <;> intro hx <;>
    simp [RemoveByID, BlockUser, UnblockUser, Pool.exec, hnf, hx, hval]

/-- C10 on a store whose reads time out while `Exec` works: the lookup fails
with `ErrInternal`, the statement is issued all the same, and each operation
returns `(nil, nil)`. -/
theorem lookup_failure_is_ignored_witness :
    (ByID flakyPool 7 ⟨(), []⟩).1 = (none, some Error.ErrInternal) ∧
    RemoveByID flakyPool 7 ⟨(), []⟩
      = ((none, none), ⟨(), [Stmt.selectByID 7, Stmt.delete 7]⟩) ∧
    BlockUser flakyPool 7 ⟨(), []⟩
      = ((none, none), ⟨(), [Stmt.selectByID 7, Stmt.block 7]⟩) ∧
    UnblockUser flakyPool 7 ⟨(), []⟩
      = ((none, none), ⟨(), [Stmt.selectByID 7, Stmt.unblock 7]⟩) :=
  ⟨by decide,
   (lookup_failure_is_ignored flakyPool 7 ⟨(), []⟩ Error.ErrInternal (by decide)
      (by decide)).1 (by decide),
   (lookup_failure_is_ignored flakyPool 7 ⟨(), []⟩ Error.ErrInternal (by decide)
      (by decide)).2.1 (by decide),
   (lookup_failure_is_ignored flakyPool 7 ⟨(), []⟩ Error.ErrInternal (by decide)
      (by decide)).2.2 (by decide)⟩

end Lookup

/-! ## Claims about the mapping of results to HTTP responses -/

section Mapping

variable {σ : Type}

/-- C5: with an id that parses, a not-found result of `RemoveByID`,
`BlockUser`, `UnblockUser` or `Save` is answered 404 with the text
"Not Found", while a not-found result of `ByID` in the get-by-id handler is
answered 500 with the text "Internal Server Error". -/
theorem not_found_status (p : Pool σ) (env : Env) (request : Request) (c : Conn σ) :
    (∀ id : Int, ParseInt (Get request.query "id") = some id →
      ((RemoveByID p id c).1.2 = some Error.ErrNotFound →
        (handleRemoveByID p env request c).1 = Response.error "Not Found" 404) ∧
      ((BlockUser p id c).1.2 = some Error.ErrNotFound →
        (handleBlockByID p env request c).1 = Response.error "Not Found" 404) ∧
      ((UnblockUser p id c).1.2 = some Error.ErrNotFound →
        (handleUnblockByID p env request c).1 = Response.error "Not Found" 404) ∧
      ((ByID p id c).1.2 = some Error.ErrNotFound →
        (handleGetCustomerByID p env request c).1
          = Response.error "Internal Server Error" 500)) ∧
    (∀ id : Int, ParseInt (FormValue request "id") = some id →
      ¬ (FormValue request "name" = "" ∧ FormValue request "phone" = "") →
      (Save p { ID := id, Name := FormValue request "name",
                Phone := FormValue request "phone", Active := true,
                Created := env.Now } c).1.2 = some Error.ErrNotFound →
      (handleSave p env request c).1 = Response.error "Not Found" 404) := by
  constructor
  · intro id hid
    refine ⟨?_, ?_, ?_, ?_⟩ <;> intro h <;>
      simp [handleRemoveByID, handleBlockByID, handleUnblockByID, handleGetCustomerByID,
        respondMutation, hid, h, httpError, StatusNotFound, StatusInternalServerError,
        StatusText]
  · intro id hid hne h
    unfold handleSave
    simp only [hid]
    rw [if_neg hne]
    simp [respondMutation, h, httpError, StatusNotFound, StatusText]

/-- C5 on the reference table, where id 2 is absent. -/
theorem not_found_status_witness :
    (handleRemoveByID tablePool demoEnv ⟨[("id", "2")], []⟩ ⟨annTable, []⟩).1
      = Response.error "Not Found" 404 ∧
    (handleBlockByID tablePool demoEnv ⟨[("id", "2")], []⟩ ⟨annTable, []⟩).1
      = Response.error "Not Found" 404 ∧
    (handleUnblockByID tablePool demoEnv ⟨[("id", "2")], []⟩ ⟨annTable, []⟩).1
      = Response.error "Not Found" 404 ∧
    (handleGetCustomerByID tablePool demoEnv ⟨[("id", "2")], []⟩ ⟨annTable, []⟩).1
      = Response.error "Internal Server Error" 500 ∧
    (handleSave tablePool demoEnv ⟨[], [("id", "2"), ("name", "Bob")]⟩ ⟨annTable, []⟩).1
      = Response.error "Not Found" 404 :=
  ⟨((not_found_status tablePool demoEnv ⟨[("id", "2")], []⟩ ⟨annTable, []⟩).1 2
      (by decide)).1 (by decide),
   ((not_found_status tablePool demoEnv ⟨[("id", "2")], []⟩ ⟨annTable, []⟩).1 2
      (by decide)).2.1 (by decide),
   ((not_found_status tablePool demoEnv ⟨[("id", "2")], []⟩ ⟨annTable, []⟩).1 2
      (by decide)).2.2.1 (by decide),
   ((not_found_status tablePool demoEnv ⟨[("id", "2")], []⟩ ⟨annTable, []⟩).1 2
      (by decide)).2.2.2 (by decide),
   (not_found_status tablePool demoEnv ⟨[], [("id", "2"), ("name", "Bob")]⟩
      ⟨annTable, []⟩).2 2 (by decide) (by decide) (by decide)⟩

/-- With an id that parses to 0 and a name or phone, `handleSave` issues the
upsert, and when that returns a row the answer is the JSON write of that row. -/
theorem handleSave_upsert (p : Pool σ) (env : Env) (request : Request) (c : Conn σ)
    (row : Customer)
    (hid : ParseInt (FormValue request "id") = some 0)
    (hne : ¬ (FormValue request "name" = "" ∧ FormValue request "phone" = ""))
    (hrow : (p.QueryRow (Stmt.upsert (FormValue request "name") (FormValue request "phone"))
              c.db).1 = .ok row) :
    handleSave p env request c =
      (writeJSON env (Payload.customer (some row)),
       ⟨(p.QueryRow (Stmt.upsert (FormValue request "name") (FormValue request "phone"))
           c.db).2,
        c.issued ++ [Stmt.upsert (FormValue request "name") (FormValue request "phone")]⟩) := by
  unfold handleSave
  simp only [hid]
  rw [if_neg hne]
  simp [Save, Pool.queryRow, hrow, respondMutation]

/-- On the reference table with a positive id counter and positive stored ids,
the upsert succeeds, and the row it returns is in the table afterwards, has
the given name and phone, and has a positive id. -/
theorem upsert_table (t : Table) (name phone : String)
    (hnext : 0 < t.nextID) (hrows : ∀ r ∈ t.rows, 0 < r.ID) :
    ∃ row : Customer,
      (tablePool.QueryRow (Stmt.upsert name phone) t).1 = .ok row ∧
      row ∈ (tablePool.QueryRow (Stmt.upsert name phone) t).2.rows ∧
      row.Name = name ∧ row.Phone = phone ∧ 0 < row.ID := by
  cases hf : t.rows.find? (fun r => r.Phone = phone) with
  | none =>
    refine ⟨{ ID := t.nextID, Name := name, Phone := phone, Active := true,
              Created := t.clock }, ?_, ?_, rfl, rfl, hnext⟩
    · simp [tablePool, Table.QueryRow, hf]
    · simp [tablePool, Table.QueryRow, hf]
  | some r =>
    have hr : r ∈ t.rows := List.mem_of_find?_eq_some hf
    have hp : r.Phone = phone := by simpa using List.find?_some hf
    refine ⟨{ r with Name := name }, ?_, ?_, rfl, hp, hrows r hr⟩
    · simp [tablePool, Table.QueryRow, hf]
    · simp only [tablePool, Table.QueryRow, hf]
      exact List.mem_map.mpr ⟨r, hr, by simp [hp]⟩

/-- C1 as stated fails: the request `name=Ann&phone=555-0100` carries no id,
the upsert would succeed on the empty table and return a row with id 1, yet
`handleSave` answers 400 and issues no statement, because `ParseInt` rejects
the empty id.  Adding `id=0` reaches the upsert, and then the answer still
depends on `json.Marshal`: on a table whose row for that phone carries a
creation time beyond the year 9999 the upsert returns that row, the encoder
fails on it, and the answer is 500. -/
theorem handleSave_without_id_is_bad_request :
    FormValue ⟨[], [("name", "Ann"), ("phone", "555-0100")]⟩ "name" = "Ann" ∧
    FormValue ⟨[], [("name", "Ann"), ("phone", "555-0100")]⟩ "phone" = "555-0100" ∧
    FormValue ⟨[], [("name", "Ann"), ("phone", "555-0100")]⟩ "id" = "" ∧
    (tablePool.QueryRow (Stmt.upsert "Ann" "555-0100") emptyTable).1
      = .ok { ID := 1, Name := "Ann", Phone := "555-0100", Active := true, Created := 0 } ∧
    handleSave tablePool demoEnv ⟨[], [("name", "Ann"), ("phone", "555-0100")]⟩
        ⟨emptyTable, []⟩
      = (Response.error "Bad Request" 400, ⟨emptyTable, []⟩) ∧
    (handleSave tablePool demoEnv ⟨[], [("name", "Ann"), ("phone", "555-0100")]⟩
        ⟨emptyTable, []⟩).1.status ≠ 200 ∧
    (tablePool.QueryRow (Stmt.upsert "Ann" "555-0100") lateTable).1
      = .ok { ID := 1, Name := "Ann", Phone := "555-0100", Active := true,
              Created := 300000000000 } ∧
    handleSave tablePool strictEnv ⟨[], [("id", "0"), ("name", "Ann"), ("phone", "555-0100")]⟩
        ⟨lateTable, []⟩
      = (Response.error "Internal Server Error" 500,
         ⟨lateTable, [Stmt.upsert "Ann" "555-0100"]⟩) :=
  ⟨by decide, by decide, by decide, rfl, by decide, by decide, rfl, by decide⟩

/-- C1 amended: for a save request with non-empty name and phone whose id field
parses to 0, on the reference table with a positive id counter and positive
stored ids: the upsert succeeds and returns a row, that row is in the table
afterwards with the name and phone of the request, its id is greater than 0,
the upsert is the only statement issued, and the answer is 200 with
`json.Marshal`'s encoding of that row as JSON body; only when `json.Marshal`
itself fails on the row is the answer 500. -/
theorem handleSave_create (env : Env) (request : Request) (c : Conn Table)
    (hid : ParseInt (FormValue request "id") = some 0)
    (hname : FormValue request "name" ≠ "")
    (hphone : FormValue request "phone" ≠ "")
    (hnext : 0 < c.db.nextID)
    (hrows : ∀ r ∈ c.db.rows, 0 < r.ID) :
    ∃ row : Customer,
      (tablePool.QueryRow
        (Stmt.upsert (FormValue request "name") (FormValue request "phone")) c.db).1
        = .ok row ∧
      row ∈ (handleSave tablePool env request c).2.db.rows ∧
      row.Name = FormValue request "name" ∧
      row.Phone = FormValue request "phone" ∧
      0 < row.ID ∧
      (handleSave tablePool env request c).2.issued
        = c.issued ++ [Stmt.upsert (FormValue request "name") (FormValue request "phone")] ∧
      (match env.Marshal (Payload.customer (some row)) with
        | .ok data =>
          (handleSave tablePool env request c).1 = Response.json data ∧
          (handleSave tablePool env request c).1.status = 200
        | .error _ =>
          (handleSave tablePool env request c).1
            = Response.error "Internal Server Error" 500) := by
  have hne : ¬ (FormValue request "name" = "" ∧ FormValue request "phone" = "") :=
    fun h => hname h.1
  have _hphone := hphone
  obtain ⟨row, hrow, hmem, hn, hp, hpos⟩ :=
    upsert_table c.db (FormValue request "name") (FormValue request "phone") hnext hrows
  have hsave := handleSave_upsert tablePool env request c row hid hne hrow
  refine ⟨row, hrow, ?_, hn, hp, hpos, ?_, ?_⟩
  · rw [hsave]; exact hmem
  · rw [hsave]
  · rw [hsave]
    cases hm : env.Marshal (Payload.customer (some row)) with
    | error e =>
      simp [writeJSON, hm, httpError, StatusInternalServerError, StatusText]
    | ok data =>
      simp [writeJSON, hm, Response.status, StatusOK]

/-- C1 amended, at `id=0&name=Ann&phone=555-0100` on the empty reference
table: the upsert returns the new row with id 1, the row is in the table
afterwards, and the answer is 200 with the encoding of that row. -/
theorem handleSave_create_witness :
    ParseInt (FormValue ⟨[], [("id", "0"), ("name", "Ann"), ("phone", "555-0100")]⟩ "id")
      = some 0 ∧
    (0 : Int) < emptyTable.nextID ∧
    handleSave tablePool demoEnv ⟨[], [("id", "0"), ("name", "Ann"), ("phone", "555-0100")]⟩
        ⟨emptyTable, []⟩
      = (Response.json "customer Ann 555-0100",
         ⟨annTable, [Stmt.upsert "Ann" "555-0100"]⟩) ∧
    ∃ row : Customer,
      (tablePool.QueryRow
        (Stmt.upsert
          (FormValue ⟨[], [("id", "0"), ("name", "Ann"), ("phone", "555-0100")]⟩ "name")
          (FormValue ⟨[], [("id", "0"), ("name", "Ann"), ("phone", "555-0100")]⟩ "phone"))
        (⟨emptyTable, []⟩ : Conn Table).db).1 = .ok row ∧
      row ∈ (handleSave tablePool demoEnv
          ⟨[], [("id", "0"), ("name", "Ann"), ("phone", "555-0100")]⟩
          ⟨emptyTable, []⟩).2.db.rows ∧
      row.Name
        = FormValue ⟨[], [("id", "0"), ("name", "Ann"), ("phone", "555-0100")]⟩ "name" ∧
      row.Phone
        = FormValue ⟨[], [("id", "0"), ("name", "Ann"), ("phone", "555-0100")]⟩ "phone" ∧
      0 < row.ID ∧
      (handleSave tablePool demoEnv
          ⟨[], [("id", "0"), ("name", "Ann"), ("phone", "555-0100")]⟩
          ⟨emptyTable, []⟩).2.issued
        = (⟨emptyTable, []⟩ : Conn Table).issued ++
          [Stmt.upsert
            (FormValue ⟨[], [("id", "0"), ("name", "Ann"), ("phone", "555-0100")]⟩ "name")
            (FormValue ⟨[], [("id", "0"), ("name", "Ann"), ("phone", "555-0100")]⟩ "phone")] ∧
      (match demoEnv.Marshal (Payload.customer (some row)) with
        | .ok data =>
          (handleSave tablePool demoEnv
            ⟨[], [("id", "0"), ("name", "Ann"), ("phone", "555-0100")]⟩
            ⟨emptyTable, []⟩).1 = Response.json data ∧
          (handleSave tablePool demoEnv
            ⟨[], [("id", "0"), ("name", "Ann"), ("phone", "555-0100")]⟩
            ⟨emptyTable, []⟩).1.status = 200
        | .error _ =>
          (handleSave tablePool demoEnv
            ⟨[], [("id", "0"), ("name", "Ann"), ("phone", "555-0100")]⟩
            ⟨emptyTable, []⟩).1 = Response.error "Internal Server Error" 500) :=
  ⟨by decide, by decide, by decide,
   handleSave_create demoEnv ⟨[], [("id", "0"), ("name", "Ann"), ("phone", "555-0100")]⟩
     ⟨emptyTable, []⟩ (by decide) (by decide) (by decide) (by decide)
     (fun _ h => absurd h (List.not_mem_nil _))⟩

/-- C2 fails on the code: with the store down, `ByID` returns `ErrInternal`
and the get-by-id handler answers 200 with body `null`; `All` and `AllActive`
return `ErrInternal` and their handlers answer 400. -/
theorem read_handlers_internal_error_not_500 :
    (ByID downPool 1 ⟨(), []⟩).1 = (none, some Error.ErrInternal) ∧
    handleGetCustomerByID downPool demoEnv ⟨[("id", "1")], []⟩ ⟨(), []⟩
      = (Response.json "null", ⟨(), [Stmt.selectByID 1]⟩) ∧
    (handleGetCustomerByID downPool demoEnv ⟨[("id", "1")], []⟩ ⟨(), []⟩).1.status = 200 ∧
    (All downPool ⟨(), []⟩).1 = (none, some Error.ErrInternal) ∧
    handleGetAll downPool demoEnv ⟨[], []⟩ ⟨(), []⟩
      = (Response.error "Bad Request" 400, ⟨(), [Stmt.selectAll]⟩) ∧
    (AllActive downPool ⟨(), []⟩).1 = (none, some Error.ErrInternal) ∧
    handleGetAllActive downPool demoEnv ⟨[], []⟩ ⟨(), []⟩
      = (Response.error "Bad Request" 400, ⟨(), [Stmt.selectActive]⟩) := by
  refine ⟨?_, ?_, ?_, ?_, ?_, ?_, ?_⟩ <;> decide

/-- The part of C2 that the code does meet: in the save, remove, block and
unblock handlers every error of the operation other than `ErrNotFound` is
answered 500 with the text "Internal Server Error". -/
theorem respondMutation_other_error (env : Env) (r : Result Customer) (err : Error)
    (herr : r.2 = some err) (hne : err ≠ Error.ErrNotFound) :
    respondMutation env r = Response.error "Internal Server Error" 500 := by
  simp [respondMutation, herr, hne, httpError, StatusInternalServerError, StatusText]

/-- C3 fails on the code: a row that cannot be scanned, or an iteration
error, makes `All` and `AllActive` return the driver error itself, which is
neither `ErrNotFound` nor `ErrInternal`. -/
theorem list_returns_raw_driver_error :
    (All badRowPool ⟨(), []⟩).1
      = (none, some (Error.pgx (PgxError.other "cannot scan NULL into *string"))) ∧
    (AllActive badRowPool ⟨(), []⟩).1
      = (none, some (Error.pgx (PgxError.other "cannot scan NULL into *string"))) ∧
    (All brokenIterPool ⟨(), []⟩).1
      = (none, some (Error.pgx (PgxError.other "unexpected EOF"))) ∧
    (AllActive brokenIterPool ⟨(), []⟩).1
      = (none, some (Error.pgx (PgxError.other "unexpected EOF"))) ∧
    (All badRowPool ⟨(), []⟩).1.2 ≠ some Error.ErrInternal ∧
    (All badRowPool ⟨(), []⟩).1.2 ≠ some Error.ErrNotFound := by
  refine ⟨?_, ?_, ?_, ?_, ?_, ?_⟩ <;> decide

/-- The part of C3 that the code does meet: the errors of `ByID`, `Save`,
`RemoveByID`, `BlockUser` and `UnblockUser` are `ErrNotFound` or `ErrInternal`. -/
theorem single_row_errors_are_sentinels (p : Pool σ) (id : Int) (item : Customer) (c : Conn σ)
    (err : Error) :
    ((ByID p id c).1.2 = some err → err = Error.ErrNotFound ∨ err = Error.ErrInternal) ∧
    ((Save p item c).1.2 = some err → err = Error.ErrNotFound ∨ err = Error.ErrInternal) ∧
    ((RemoveByID p id c).1.2 = some err → err = Error.ErrNotFound ∨ err = Error.ErrInternal) ∧
    ((BlockUser p id c).1.2 = some err → err = Error.ErrNotFound ∨ err = Error.ErrInternal) ∧
    ((UnblockUser p id c).1.2 = some err → err = Error.ErrNotFound ∨ err = Error.ErrInternal) := by
  have hby : ∀ i : Int, (ByID p i c).1.2 = some err →
      err = Error.ErrNotFound ∨ err = Error.ErrInternal := by
    intro i h
    rcases ByID_cases p i c with h1 | h1 | ⟨cust, h1⟩ <;> rw [h1] at h <;> simp at h <;>
      simp [← h]
  refine ⟨hby id, ?_, ?_, ?_, ?_⟩
  · unfold Save
    by_cases h0 : item.ID = 0
    · simp only [h0, if_true, Pool.queryRow]
      cases (p.QueryRow (Stmt.upsert item.Name item.Phone) c.db).1 <;> simp <;>
        intro h <;> simp [← h]
    · simp only [h0, if_false]
      by_cases hnf : (ByID p item.ID c).1.2 = some Error.ErrNotFound
      · simp only [hnf, if_true]; intro h; simp at h; simp [← h]
      · simp only [hnf, if_false, Pool.queryRow]
        cases (p.QueryRow (Stmt.update item.ID item.Name item.Phone)
          (ByID p item.ID c).2.db).1 <;> simp <;> intro h <;> simp [← h]
  · unfold RemoveByID
    by_cases hnf : (ByID p id c).1.2 = some Error.ErrNotFound
    · simp only [hnf, if_true]; intro h; simp at h; simp [← h]
    · simp only [hnf, if_false, Pool.exec]
      cases (p.Exec (Stmt.delete id) (ByID p id c).2.db).1 <;> simp <;> intro h <;>
        simp [← h]
  · unfold BlockUser
    by_cases hnf : (ByID p id c).1.2 = some Error.ErrNotFound
    · simp only [hnf, if_true]; intro h; simp at h; simp [← h]
    · simp only [hnf, if_false, Pool.exec]
      cases (p.Exec (Stmt.block id) (ByID p id c).2.db).1 <;> simp <;> intro h <;>
        simp [← h]
  · unfold UnblockUser
    by_cases hnf : (ByID p id c).1.2 = some Error.ErrNotFound
    · simp only [hnf, if_true]; intro h; simp at h; simp [← h]
    · simp only [hnf, if_false, Pool.exec]
      cases (p.Exec (Stmt.unblock id) (ByID p id c).2.db).1 <;> simp <;> intro h <;>
        simp [← h]

end Mapping

/-! ## Block, unblock and the list of active customers, on the reference table -/

section Blocking

theorem scanLoop_ok (rows acc : List Customer) :
    scanLoop (rows.map Except.ok) acc = .ok (acc ++ rows) := by
  induction rows generalizing acc with
  | nil => simp [scanLoop]
  | cons r rest ih => simp [scanLoop, ih]

theorem AllActive_table (c : Conn Table) :
    AllActive tablePool c =
      ((some (c.db.rows.filter (fun r => r.Active)), none),
       ⟨c.db, c.issued ++ [Stmt.selectActive]⟩) := by
  simp [AllActive, Pool.query, tablePool, Table.Query, scanLoop_ok]

theorem find_of_present (rows : List Customer) (id : Int) (h : ∃ r ∈ rows, r.ID = id) :
    ∃ r, rows.find? (fun r => r.ID = id) = some r := by
  cases hf : rows.find? (fun r => r.ID = id) with
  | some r => exact ⟨r, rfl⟩
  | none =>
    obtain ⟨r, hr, hid⟩ := h
    have := List.find?_eq_none.mp hf r hr
    simp [hid] at this

theorem BlockUser_table (c : Conn Table) (id : Int) (h : ∃ r ∈ c.db.rows, r.ID = id) :
    ∃ r, BlockUser tablePool id c =
      ((some r, none),
       ⟨{ c.db with rows := c.db.rows.map (setActive id false) },
        c.issued ++ [Stmt.selectByID id, Stmt.block id]⟩) := by
  obtain ⟨r, hr⟩ := find_of_present c.db.rows id h
  exact ⟨r, by simp [BlockUser, ByID, Pool.queryRow, Pool.exec, tablePool, Table.QueryRow,
    Table.Exec, hr]⟩

theorem UnblockUser_table (c : Conn Table) (id : Int) (h : ∃ r ∈ c.db.rows, r.ID = id) :
    ∃ r, UnblockUser tablePool id c =
      ((some r, none),
       ⟨{ c.db with rows := c.db.rows.map (setActive id true) },
        c.issued ++ [Stmt.selectByID id, Stmt.unblock id]⟩) := by
  obtain ⟨r, hr⟩ := find_of_present c.db.rows id h
  exact ⟨r, by simp [UnblockUser, ByID, Pool.queryRow, Pool.exec, tablePool, Table.QueryRow,
    Table.Exec, hr]⟩

theorem setActive_ID (id : Int) (b : Bool) (r : Customer) : (setActive id b r).ID = r.ID := by
  unfold setActive; split <;> rfl

theorem setActive_other (id : Int) (b : Bool) (r : Customer) (h : r.ID ≠ id) :
    setActive id b r = r := by
  simp [setActive, h]

theorem setActive_same (id : Int) (b : Bool) (r : Customer) (h : r.ID = id) :
    (setActive id b r).Active = b := by
  simp [setActive, h]

/-- Rows with another id are the same rows before and after the update. -/
theorem mem_map_setActive_other (rows : List Customer) (id : Int) (b : Bool) (x : Customer)
    (hx : x.ID ≠ id) : x ∈ rows.map (setActive id b) ↔ x ∈ rows := by
  constructor
  · intro h
    obtain ⟨r, hr, rfl⟩ := List.mem_map.mp h
    have hrid : r.ID ≠ id := by rwa [setActive_ID] at hx
    rwa [setActive_other id b r hrid]
  · intro h
    exact List.mem_map.mpr ⟨x, h, setActive_other id b x hx⟩

/-- C8: on the reference table, for an id present in it: `BlockUser` succeeds
and the `AllActive` that follows lists no customer with that id; the
`UnblockUser` after that succeeds and the next `AllActive` lists a customer
with that id; and a customer with any other id is in all three lists
(before, after the block, after the unblock) or in none.  Uniqueness of ids
is not needed for this. -/
theorem block_unblock_allActive (c : Conn Table) (id : Int)
    (hmem : ∃ r ∈ c.db.rows, r.ID = id) :
    ∃ before blocked unblocked : List Customer,
      (AllActive tablePool c).1 = (some before, none) ∧
      (BlockUser tablePool id c).1.2 = none ∧
      (AllActive tablePool (BlockUser tablePool id c).2).1 = (some blocked, none) ∧
      (∀ x ∈ blocked, x.ID ≠ id) ∧
      (UnblockUser tablePool id
        (AllActive tablePool (BlockUser tablePool id c).2).2).1.2 = none ∧
      (AllActive tablePool
        (UnblockUser tablePool id
          (AllActive tablePool (BlockUser tablePool id c).2).2).2).1 = (some unblocked, none) ∧
      (∃ x ∈ unblocked, x.ID = id) ∧
      (∀ x : Customer, x.ID ≠ id →
        ((x ∈ before ↔ x ∈ blocked) ∧ (x ∈ blocked ↔ x ∈ unblocked))) := by
  obtain ⟨r0, hblock⟩ := BlockUser_table c id hmem
  have hmem1 : ∃ r ∈ (AllActive tablePool (BlockUser tablePool id c).2).2.db.rows, r.ID = id := by
    obtain ⟨r, hr, hid⟩ := hmem
    rw [AllActive_table, hblock]
    exact ⟨setActive id false r, List.mem_map.mpr ⟨r, hr, rfl⟩, by rw [setActive_ID, hid]⟩
  obtain ⟨r1, hunblock⟩ :=
    UnblockUser_table (AllActive tablePool (BlockUser tablePool id c).2).2 id hmem1
  refine ⟨c.db.rows.filter (fun r => r.Active),
    (c.db.rows.map (setActive id false)).filter (fun r => r.Active),
    ((c.db.rows.map (setActive id false)).map (setActive id true)).filter (fun r => r.Active),
    ?_, ?_, ?_, ?_, ?_, ?_, ?_, ?_⟩
  · rw [AllActive_table]
  · rw [hblock]
  · rw [AllActive_table, hblock]
  · intro x hx hid
    obtain ⟨hxm, hact⟩ := List.mem_filter.mp hx
    obtain ⟨r, _, rfl⟩ := List.mem_map.mp hxm
    have hrid : r.ID = id := by rwa [setActive_ID] at hid
    rw [setActive_same id false r hrid] at hact
    simp at hact
  · rw [hunblock]
  · rw [AllActive_table, hunblock, AllActive_table, hblock]
  · obtain ⟨r, hr, hid⟩ := hmem
    refine ⟨setActive id true (setActive id false r), ?_, ?_⟩
    · refine List.mem_filter.mpr ⟨?_, ?_⟩
      · exact List.mem_map.mpr ⟨_, List.mem_map.mpr ⟨r, hr, rfl⟩, rfl⟩
      · rw [setActive_same id true _ (by rw [setActive_ID, hid])]
    · rw [setActive_ID, setActive_ID, hid]
  · intro x hx
    have h1 := mem_map_setActive_other c.db.rows id false x hx
    have h2 := mem_map_setActive_other (c.db.rows.map (setActive id false)) id true x hx
    exact ⟨by rw [List.mem_filter, List.mem_filter, h1],
      by rw [List.mem_filter, List.mem_filter, h2]⟩

/-- C8 on the two-row table: blocking customer 1 leaves only customer 2 in the
active list, unblocking brings customer 1 back, customer 2 stays throughout. -/
theorem block_unblock_allActive_witness :
    (∃ r ∈ pairTable.rows, r.ID = 1) ∧
    (AllActive tablePool (BlockUser tablePool 1 ⟨pairTable, []⟩).2).1
      = (some [{ ID := 2, Name := "Bob", Phone := "555-0101", Active := true, Created := 5 }],
         none) ∧
    (AllActive tablePool
      (UnblockUser tablePool 1
        (AllActive tablePool (BlockUser tablePool 1 ⟨pairTable, []⟩).2).2).2).1
      = (some pairTable.rows, none) ∧
    ∃ before blocked unblocked : List Customer,
      (AllActive tablePool ⟨pairTable, []⟩).1 = (some before, none) ∧
      (BlockUser tablePool 1 ⟨pairTable, []⟩).1.2 = none ∧
      (AllActive tablePool (BlockUser tablePool 1 ⟨pairTable, []⟩).2).1
        = (some blocked, none) ∧
      (∀ x ∈ blocked, x.ID ≠ 1) ∧
      (UnblockUser tablePool 1
        (AllActive tablePool (BlockUser tablePool 1 ⟨pairTable, []⟩).2).2).1.2 = none ∧
      (AllActive tablePool
        (UnblockUser tablePool 1
          (AllActive tablePool (BlockUser tablePool 1 ⟨pairTable, []⟩).2).2).2).1
        = (some unblocked, none) ∧
      (∃ x ∈ unblocked, x.ID = 1) ∧
      (∀ x : Customer, x.ID ≠ 1 →
        ((x ∈ before ↔ x ∈ blocked) ∧ (x ∈ blocked ↔ x ∈ unblocked))) :=
  ⟨⟨_, List.mem_cons_self _ _, rfl⟩, by decide, by decide,
   block_unblock_allActive ⟨pairTable, []⟩ 1 ⟨_, List.mem_cons_self _ _, rfl⟩⟩

/-- On the reference table, an operation on an absent id leaves the table as it
was. -/
theorem absent_id_table_unchanged (c : Conn Table) (id : Int)
    (h : ∀ r ∈ c.db.rows, r.ID ≠ id) :
    (ByID tablePool id c).2.db = c.db ∧ (RemoveByID tablePool id c).2.db = c.db ∧
    (BlockUser tablePool id c).2.db = c.db ∧ (UnblockUser tablePool id c).2.db = c.db := by
  have hf : c.db.rows.find? (fun r => r.ID = id) = none :=
    List.find?_eq_none.mpr (fun r hr => by simpa using h r hr)
  have hq : (tablePool.QueryRow (Stmt.selectByID id) c.db) = (.error PgxError.ErrNoRows, c.db) := by
    simp [tablePool, Table.QueryRow, hf]
  have hb := ByID_of_noRows tablePool id c (by rw [hq])
  refine ⟨?_, ?_, ?_, ?_⟩ <;> simp [RemoveByID, BlockUser, UnblockUser, hb, hq]

end Blocking

end Gosql
